import Mathlib

/-
Verification of the color-manager client binding (Rust crate wrapping the
org.freedesktop.ColorManager D-Bus interface) against its specification.

The Rust sources (src/scope.rs, src/device.rs, src/profile.rs, src/sensor.rs,
src/color_manager.rs) are shallowly embedded below.  Remote interaction is
made explicit: each operation that issues a wire call is split into the
`MethodCall` record it sends and a pure handler of the reply `Message`;
each notification operation takes the first element of its signal stream as
an `Option Message` (`none` models a stream that closed without an event).
D-Bus object-path validation performed by the zvariant `ObjectPath` type and
the string (de)serialization generated by the serde derives are embedded
from their documented behavior, since the crate delegates to them.
-/

namespace Colord

/-- A character allowed inside a D-Bus object-path element: `[A-Za-z0-9_]`
(the grammar enforced by zvariant `ObjectPath::try_from`). -/
def isPathChar (c : Char) : Bool :=
  c.isAlpha || c.isDigit || c = '_'

/-- Scanner for the remainder of an object path after the leading slash.
The flag is `true` when the previous character was a slash (so an element
character must follow) and `false` inside an element. -/
def validPathFrom : Bool → List Char → Bool
  | true, [] => false
  | true, c :: rest => isPathChar c && validPathFrom false rest
  | false, [] => true
  | false, c :: rest =>
    if c = '/' then validPathFrom true rest
    else isPathChar c && validPathFrom false rest

/-- D-Bus object-path syntax: `/`, or a slash-led sequence of nonempty
elements of path characters, with no trailing slash (zvariant `ObjectPath`). -/
def validObjectPath (s : String) : Bool :=
  match s.data with
  | ['/'] => true
  | '/' :: rest => validPathFrom true rest
  | _ => false

/-- Errors surfaced by the binding (`zbus::Error`): path-conversion failure at
proxy construction, a reply or property value of the wrong shape, and the
explicit `zbus::Error::Failure(msg)` used by the notification helpers. -/
inductive ZError where
  | invalidPath : ZError
  | decodeError : ZError
  | failure : String → ZError
deriving DecidableEq

/-- Wire values exchanged with the peer (the fragment of the zvariant value
space this crate uses). -/
inductive WireValue where
  | str : String → WireValue
  | objectPath : String → WireValue
  | boolean : Bool → WireValue
  | uint64 : Nat → WireValue
  | arr : List WireValue → WireValue

/-- A reply or signal message; only its body matters to the binding. -/
structure Message where
  body : WireValue

/-- One wire method call: the method name string and serialized arguments. -/
structure MethodCall where
  method : String
  args : List WireValue

/-- src/scope.rs: `pub enum Scope { Normal, Temp, Disk }`. -/
inductive Scope where
  | normal : Scope
  | temp : Scope
  | disk : Scope
deriving DecidableEq

/-- src/scope.rs: `impl Default for Scope` returns `Self::Normal`. -/
def Scope.default : Scope := Scope.normal

/-- Wire encoding of `Scope` from `#[serde(rename_all = "lowercase")]`. -/
def Scope.encode : Scope → String
  | Scope.normal => "normal"
  | Scope.temp => "temp"
  | Scope.disk => "disk"

/-- src/scope.rs: `impl From<OwnedValue> for Scope`, applied to the string
carried by the value (`"temp"`, `"disk"`, anything else falls back to the
default). -/
def Scope.ofOwnedValue (s : String) : Scope :=
  if s = "temp" then Scope.temp
  else if s = "disk" then Scope.disk
  else Scope.default

/-- src/device.rs: `pub enum Kind { Scanner, Display, Camera, Printer, Webcam }`. -/
inductive Kind where
  | scanner : Kind
  | display : Kind
  | camera : Kind
  | printer : Kind
  | webcam : Kind
deriving DecidableEq

/-- Wire encoding of `Kind` from `#[serde(rename_all = "lowercase")]`. -/
def Kind.encode : Kind → String
  | Kind.scanner => "scanner"
  | Kind.display => "display"
  | Kind.camera => "camera"
  | Kind.printer => "printer"
  | Kind.webcam => "webcam"

/-- src/device.rs: `impl From<OwnedValue> for Kind`, applied to the carried
string.  The source matches `"scanner"`, then `"Camera"` with a capital C,
and sends every other string to `Self::Display`. -/
def Kind.ofOwnedValue (s : String) : Kind :=
  if s = "scanner" then Kind.scanner
  else if s = "Camera" then Kind.camera
  else Kind.display

/-- src/device.rs: `pub enum Relation { Soft, Hard }`. -/
inductive Relation where
  | soft : Relation
  | hard : Relation
deriving DecidableEq

/-- src/device.rs: `impl Default for Relation` returns `Self::Hard`. -/
def Relation.default : Relation := Relation.hard

/-- Wire encoding of `Relation` from `#[serde(rename_all = "lowercase")]`. -/
def Relation.encode : Relation → String
  | Relation.soft => "soft"
  | Relation.hard => "hard"

/-- The serde-derived `Deserialize` for `Relation` (the only decode path the
crate has for it, via `msg.body::<Relation>()`): a unit-variant enum with
`rename_all = "lowercase"` accepts exactly its variant names and rejects
every other string. -/
def Relation.deserialize (s : String) : Option Relation :=
  if s = "soft" then some Relation.soft
  else if s = "hard" then some Relation.hard
  else none

/-- src/device.rs: `pub enum Mode { Virtual, Physical, Unknown }` (device mode). -/
inductive Mode where
  | virtual : Mode
  | physical : Mode
  | unknown : Mode
deriving DecidableEq

/-- src/device.rs: `impl Default for Mode` returns `Self::Unknown`. -/
def Mode.default : Mode := Mode.unknown

/-- Wire encoding of the device `Mode` from `#[serde(rename_all = "lowercase")]`. -/
def Mode.encode : Mode → String
  | Mode.virtual => "virtual"
  | Mode.physical => "physical"
  | Mode.unknown => "unknown"

/-- src/device.rs: `impl From<OwnedValue> for Mode`, applied to the carried
string; unrecognized strings fall back to `Self::default()`. -/
def Mode.ofOwnedValue (s : String) : Mode :=
  if s = "virtual" then Mode.virtual
  else if s = "physical" then Mode.physical
  else Mode.default

/-- src/sensor.rs: `pub enum Mode { Ambient, Printer, Unknown }` (sensor mode). -/
inductive SensorMode where
  | ambient : SensorMode
  | printer : SensorMode
  | unknown : SensorMode
deriving DecidableEq

/-- Wire encoding of the sensor `Mode` from `#[serde(rename_all = "lowercase")]`. -/
def SensorMode.encode : SensorMode → String
  | SensorMode.ambient => "ambient"
  | SensorMode.printer => "printer"
  | SensorMode.unknown => "unknown"

/-- src/sensor.rs: `impl From<OwnedValue> for Mode`, applied to the carried
string; unrecognized strings fall back to `Self::Unknown`. -/
def SensorMode.ofOwnedValue (s : String) : SensorMode :=
  if s = "ambient" then SensorMode.ambient
  else if s = "printer" then SensorMode.printer
  else SensorMode.unknown

/-- An established bus session (`zbus::Connection`); identified abstractly. -/
structure Connection where
  id : Nat
deriving DecidableEq

/-- The state held by a built `zbus::Proxy`: connection, interface name,
object path, destination service name. -/
structure Proxy where
  connection : Connection
  interface : String
  path : String
  destination : String
deriving DecidableEq

/-- `zbus::ProxyBuilder::new_bare(..).interface(..).path(p).destination(..)
.build()` with property caching off: purely local construction that fails
if and only if the supplied object path is syntactically invalid.  The
interface and destination arguments are the crate's string constants and
always well formed. -/
def proxyBuild (conn : Connection) (iface : String) (objectPath : String)
    (dest : String) : Except ZError Proxy :=
  if validObjectPath objectPath then
    Except.ok ⟨conn, iface, objectPath, dest⟩
  else
    Except.error ZError.invalidPath

/-- Decoding a reply body as one `OwnedObjectPath` (`msg.body::<OwnedObjectPath>()`).
zvariant validates object-path syntax while deserializing. -/
def decodeObjectPath : WireValue → Except ZError String
  | WireValue.objectPath p =>
    if validObjectPath p then Except.ok p else Except.error ZError.decodeError
  | _ => Except.error ZError.decodeError

/-- Elementwise decoding of a list of wire values as object paths. -/
def decodePathElems : List WireValue → Except ZError (List String)
  | [] => Except.ok []
  | v :: rest =>
    match decodeObjectPath v with
    | Except.error e => Except.error e
    | Except.ok p =>
      match decodePathElems rest with
      | Except.error e => Except.error e
      | Except.ok ps => Except.ok (p :: ps)

/-- Decoding a reply body as `Vec<OwnedObjectPath>`. -/
def decodeObjectPathList : WireValue → Except ZError (List String)
  | WireValue.arr vs => decodePathElems vs
  | _ => Except.error ZError.decodeError

/-- Decoding a property value as a Rust `String` (`get_property::<String>`). -/
def getPropertyString : WireValue → Except ZError String
  | WireValue.str s => Except.ok s
  | _ => Except.error ZError.decodeError

/-- Decoding a property value as a Rust `bool` (`get_property::<bool>`). -/
def getPropertyBool : WireValue → Except ZError Bool
  | WireValue.boolean b => Except.ok b
  | _ => Except.error ZError.decodeError

/-- src/profile.rs: `pub struct Profile<'a>(zbus::Proxy<'a>)`. -/
structure Profile where
  inner : Proxy
deriving DecidableEq

/-- src/profile.rs `Profile::new`: builds a bare proxy on interface
`org.freedesktop.ColorManager.Profile` at the given path, destination
`org.freedesktop.ColorManager`, with property caching off. -/
def Profile.new (conn : Connection) (objectPath : String) : Except ZError Profile :=
  match proxyBuild conn "org.freedesktop.ColorManager.Profile" objectPath
      "org.freedesktop.ColorManager" with
  | Except.error e => Except.error e
  | Except.ok p => Except.ok ⟨p⟩

/-- src/profile.rs `Profile::from_paths`: constructs one proxy per path in
order, returning early with the first construction error. -/
def Profile.from_paths (conn : Connection) : List String → Except ZError (List Profile)
  | [] => Except.ok []
  | p :: rest =>
    match Profile.new conn p with
    | Except.error e => Except.error e
    | Except.ok item =>
      match Profile.from_paths conn rest with
      | Except.error e => Except.error e
      | Except.ok items => Except.ok (item :: items)

/-- src/profile.rs `impl Serialize for Profile`: serializes as the proxy's
object path (`ObjectPath::serialize(self.inner().path(), serializer)`). -/
def Profile.serialize (p : Profile) : WireValue :=
  WireValue.objectPath p.inner.path

/-- src/profile.rs `Profile::changed`: awaits the first `Changed` signal;
a closed stream yields `zbus::Error::Failure("No response")`. -/
def Profile.changed (_p : Profile) (first : Option Message) : Except ZError Unit :=
  match first with
  | none => Except.error (ZError.failure "No response")
  | some _ => Except.ok ()

/-- src/device.rs: `pub struct Device<'a>(zbus::Proxy<'a>)`. -/
structure Device where
  inner : Proxy
deriving DecidableEq

/-- src/device.rs `Device::new`: builds a bare proxy on interface
`org.freedesktop.ColorManager.Device` at the given path, destination
`org.freedesktop.ColorManager`, with property caching off. -/
def Device.new (conn : Connection) (objectPath : String) : Except ZError Device :=
  match proxyBuild conn "org.freedesktop.ColorManager.Device" objectPath
      "org.freedesktop.ColorManager" with
  | Except.error e => Except.error e
  | Except.ok p => Except.ok ⟨p⟩

/-- src/device.rs `Device::from_paths`: constructs one proxy per path in
order, returning early with the first construction error. -/
def Device.from_paths (conn : Connection) : List String → Except ZError (List Device)
  | [] => Except.ok []
  | p :: rest =>
    match Device.new conn p with
    | Except.error e => Except.error e
    | Except.ok item =>
      match Device.from_paths conn rest with
      | Except.error e => Except.error e
      | Except.ok items => Except.ok (item :: items)

/-- src/device.rs `impl Serialize for Device`: serializes as the proxy's
object path. -/
def Device.serialize (d : Device) : WireValue :=
  WireValue.objectPath d.inner.path

/-- src/device.rs: the `DeviceProperties` dict struct (note `embedded: bool`). -/
structure DeviceProperties where
  created : Nat
  modified : Nat
  model : String
  serial : String
  vendor : String
  colorspace : String
  kind : String
  device_id : String
  profiles : List Profile
  mode : Mode
  format : String
  scope : Scope
  owner : Nat
  enabled : Bool
  seat : String
  embedded : Bool
  metadata : List (String × String)
  profiling_inhibitors : List String

/-- src/device.rs `Device::add_profile`: the wire call it issues,
`call_method("AddProfile", &(relation, profile))` — the relation serializes
to its wire string and the profile to its object path. -/
def Device.add_profile_call (_d : Device) (relation : Relation)
    (profile : Profile) : MethodCall :=
  ⟨"AddProfile", [WireValue.str relation.encode, profile.serialize]⟩

/-- src/device.rs `Device::remove_profile`: the wire call it issues. -/
def Device.remove_profile_call (_d : Device) (profile : Profile) : MethodCall :=
  ⟨"RemoveProfile", [profile.serialize]⟩

/-- src/device.rs `Device::make_profile_default`: the wire call it issues. -/
def Device.make_profile_default_call (_d : Device) (profile : Profile) : MethodCall :=
  ⟨"MakeProfileDefault", [profile.serialize]⟩

/-- src/device.rs `Device::profile_relation`: issues
`call_method("GetProfileRelation", &(profile))` and deserializes the reply
body as a `Relation` (`msg.body()`). -/
def Device.profile_relation (_d : Device) (_profile : Profile)
    (reply : Message) : Except ZError Relation :=
  match reply.body with
  | WireValue.str s =>
    match Relation.deserialize s with
    | some r => Except.ok r
    | none => Except.error ZError.decodeError
  | _ => Except.error ZError.decodeError

/-- src/device.rs `Device::changed`: awaits the first `Changed` signal;
a closed stream yields `zbus::Error::Failure("No response")`. -/
def Device.changed (_d : Device) (first : Option Message) : Except ZError Unit :=
  match first with
  | none => Except.error (ZError.failure "No response")
  | some _ => Except.ok ()

/-- src/device.rs `Device::embedded`: reads the `Embedded` property as a
Rust `String` (the declared return type is `Result<String>`). -/
def Device.embedded (_d : Device) (value : WireValue) : Except ZError String :=
  getPropertyString value

/-- src/device.rs `Device::enabled`: reads the `Enabled` property as `bool`. -/
def Device.enabled (_d : Device) (value : WireValue) : Except ZError Bool :=
  getPropertyBool value

/-- src/device.rs `Device::profiles`: reads the `Profiles` property as
`Vec<OwnedObjectPath>` and resolves the paths with `Profile::from_paths`
on this proxy's connection. -/
def Device.profiles (d : Device) (value : WireValue) : Except ZError (List Profile) :=
  match decodeObjectPathList value with
  | Except.error e => Except.error e
  | Except.ok paths => Profile.from_paths d.inner.connection paths

/-- src/sensor.rs: `pub struct Sensor<'a>(zbus::Proxy<'a>)`. -/
structure Sensor where
  inner : Proxy
deriving DecidableEq

/-- src/sensor.rs `Sensor::new`: builds a bare proxy on interface
`org.freedesktop.ColorManager.Sensor` at the given path, destination
`org.freedesktop.ColorManager`, with property caching off. -/
def Sensor.new (conn : Connection) (objectPath : String) : Except ZError Sensor :=
  match proxyBuild conn "org.freedesktop.ColorManager.Sensor" objectPath
      "org.freedesktop.ColorManager" with
  | Except.error e => Except.error e
  | Except.ok p => Except.ok ⟨p⟩

/-- src/sensor.rs `Sensor::from_paths`: constructs one proxy per path in
order, returning early with the first construction error. -/
def Sensor.from_paths (conn : Connection) : List String → Except ZError (List Sensor)
  | [] => Except.ok []
  | p :: rest =>
    match Sensor.new conn p with
    | Except.error e => Except.error e
    | Except.ok item =>
      match Sensor.from_paths conn rest with
      | Except.error e => Except.error e
      | Except.ok items => Except.ok (item :: items)

/-- src/sensor.rs `impl Serialize for Sensor`: serializes as the proxy's
object path. -/
def Sensor.serialize (s : Sensor) : WireValue :=
  WireValue.objectPath s.inner.path

/-- src/sensor.rs `Sensor::button_pressed`: awaits the first `ButtonPressed`
signal; a closed stream yields `zbus::Error::Failure("No response")`. -/
def Sensor.button_pressed (_s : Sensor) (first : Option Message) : Except ZError Unit :=
  match first with
  | none => Except.error (ZError.failure "No response")
  | some _ => Except.ok ()

/-- src/color_manager.rs: `pub struct ColorManager<'a>(zbus::Proxy<'a>)`. -/
structure ColorManager where
  inner : Proxy
deriving DecidableEq

/-- src/color_manager.rs `ColorManager::from_connection`: a bare proxy on
interface `org.freedesktop.ColorManager`, the fixed root path
`/org/freedesktop/ColorManager`, destination `org.freedesktop.ColorManager`. -/
def ColorManager.from_connection (conn : Connection) : Except ZError ColorManager :=
  match proxyBuild conn "org.freedesktop.ColorManager"
      "/org/freedesktop/ColorManager" "org.freedesktop.ColorManager" with
  | Except.error e => Except.error e
  | Except.ok p => Except.ok ⟨p⟩

/-- `ColorManager::devices`: the wire call, `call_method("GetDevices", &())`. -/
def ColorManager.devices_call (_cm : ColorManager) : MethodCall :=
  ⟨"GetDevices", []⟩

/-- `ColorManager::devices`: reply handling — decode `Vec<OwnedObjectPath>`
and resolve with `Device::from_paths`. -/
def ColorManager.devices (cm : ColorManager) (reply : Message) :
    Except ZError (List Device) :=
  match decodeObjectPathList reply.body with
  | Except.error e => Except.error e
  | Except.ok paths => Device.from_paths cm.inner.connection paths

/-- `ColorManager::devices_by_kind`: the wire call,
`call_method("GetDevicesByKind", &(kind))`. -/
def ColorManager.devices_by_kind_call (_cm : ColorManager) (kind : String) : MethodCall :=
  ⟨"GetDevicesByKind", [WireValue.str kind]⟩

/-- `ColorManager::devices_by_kind`: reply handling. -/
def ColorManager.devices_by_kind (cm : ColorManager) (_kind : String)
    (reply : Message) : Except ZError (List Device) :=
  match decodeObjectPathList reply.body with
  | Except.error e => Except.error e
  | Except.ok paths => Device.from_paths cm.inner.connection paths

/-- `ColorManager::find_device_by_id`: the wire call,
`call_method("FindDeviceById", &(device_id))`. -/
def ColorManager.find_device_by_id_call (_cm : ColorManager) (device_id : String) :
    MethodCall :=
  ⟨"FindDeviceById", [WireValue.str device_id]⟩

/-- `ColorManager::find_device_by_id`: reply handling — decode one
`OwnedObjectPath` and build a `Device`. -/
def ColorManager.find_device_by_id (cm : ColorManager) (reply : Message) :
    Except ZError Device :=
  match decodeObjectPath reply.body with
  | Except.error e => Except.error e
  | Except.ok p => Device.new cm.inner.connection p

/-- `ColorManager::find_sensor_by_id`: the wire call,
`call_method("FindSensorById", &(device_id))`. -/
def ColorManager.find_sensor_by_id_call (_cm : ColorManager) (device_id : String) :
    MethodCall :=
  ⟨"FindSensorById", [WireValue.str device_id]⟩

/-- `ColorManager::find_device_by_property`: the wire call,
`call_method("FindDeviceByProperty", &(key, value))` — two arguments. -/
def ColorManager.find_device_by_property_call (_cm : ColorManager)
    (key : String) (value : String) : MethodCall :=
  ⟨"FindDeviceByProperty", [WireValue.str key, WireValue.str value]⟩

/-- `ColorManager::find_profile_by_id`: the wire call the source issues,
`call_method("FindDeviceByProperty", &(profile_id))` — the method-name
string in the body is `FindDeviceByProperty` with one argument, although
the function is documented (`doc(alias)`) as `FindProfileById`. -/
def ColorManager.find_profile_by_id_call (_cm : ColorManager)
    (profile_id : String) : MethodCall :=
  ⟨"FindDeviceByProperty", [WireValue.str profile_id]⟩

/-- `ColorManager::find_profile_by_id`: reply handling — decode one
`OwnedObjectPath` and build a `Profile`. -/
def ColorManager.find_profile_by_id (cm : ColorManager) (reply : Message) :
    Except ZError Profile :=
  match decodeObjectPath reply.body with
  | Except.error e => Except.error e
  | Except.ok p => Profile.new cm.inner.connection p

/-- `ColorManager::sensors`: the wire call, `call_method("GetSensors", &())`. -/
def ColorManager.sensors_call (_cm : ColorManager) : MethodCall :=
  ⟨"GetSensors", []⟩

/-- `ColorManager::sensors`: reply handling. -/
def ColorManager.sensors (cm : ColorManager) (reply : Message) :
    Except ZError (List Sensor) :=
  match decodeObjectPathList reply.body with
  | Except.error e => Except.error e
  | Except.ok paths => Sensor.from_paths cm.inner.connection paths

/-- `ColorManager::profiles_by_kind`: the wire call,
`call_method("GetProfilesByKind", &(kind))`. -/
def ColorManager.profiles_by_kind_call (_cm : ColorManager) (kind : String) :
    MethodCall :=
  ⟨"GetProfilesByKind", [WireValue.str kind]⟩

/-- `ColorManager::profiles_by_kind`: reply handling. -/
def ColorManager.profiles_by_kind (cm : ColorManager) (_kind : String)
    (reply : Message) : Except ZError (List Profile) :=
  match decodeObjectPathList reply.body with
  | Except.error e => Except.error e
  | Except.ok paths => Profile.from_paths cm.inner.connection paths

/-- `ColorManager::delete_device`: the wire call,
`call_method("DeleteDevice", &(device))` — the device serializes to its
object path. -/
def ColorManager.delete_device_call (_cm : ColorManager) (device : Device) :
    MethodCall :=
  ⟨"DeleteDevice", [device.serialize]⟩

/-- `ColorManager::delete_profile`: the wire call,
`call_method("DeleteProfile", &(profile))`. -/
def ColorManager.delete_profile_call (_cm : ColorManager) (profile : Profile) :
    MethodCall :=
  ⟨"DeleteProfile", [profile.serialize]⟩

/-- `ColorManager::changed`: awaits the first `Changed` signal; a closed
stream yields `zbus::Error::Failure("No response")`. -/
def ColorManager.changed (_cm : ColorManager) (first : Option Message) :
    Except ZError Unit :=
  match first with
  | none => Except.error (ZError.failure "No response")
  | some _ => Except.ok ()

/-- `ColorManager::device_added`: awaits the first `DeviceAdded` signal and
builds a `Device` from the object path in its body. -/
def ColorManager.device_added (cm : ColorManager) (first : Option Message) :
    Except ZError Device :=
  match first with
  | none => Except.error (ZError.failure "No response")
  | some message =>
    match decodeObjectPath message.body with
    | Except.error e => Except.error e
    | Except.ok content => Device.new cm.inner.connection content

/-- `ColorManager::device_changed`: awaits the first `DeviceChanged` signal
and builds a `Device` from the object path in its body. -/
def ColorManager.device_changed (cm : ColorManager) (first : Option Message) :
    Except ZError Device :=
  match first with
  | none => Except.error (ZError.failure "No response")
  | some message =>
    match decodeObjectPath message.body with
    | Except.error e => Except.error e
    | Except.ok content => Device.new cm.inner.connection content

/-- `ColorManager::profile_added`: awaits the first `ProfileAdded` signal and
builds a `Profile` from the object path in its body. -/
def ColorManager.profile_added (cm : ColorManager) (first : Option Message) :
    Except ZError Profile :=
  match first with
  | none => Except.error (ZError.failure "No response")
  | some message =>
    match decodeObjectPath message.body with
    | Except.error e => Except.error e
    | Except.ok content => Profile.new cm.inner.connection content

/-- `ColorManager::profile_removed`: awaits the first `ProfileRemoved` signal
and builds a `Profile` from the object path in its body. -/
def ColorManager.profile_removed (cm : ColorManager) (first : Option Message) :
    Except ZError Profile :=
  match first with
  | none => Except.error (ZError.failure "No response")
  | some message =>
    match decodeObjectPath message.body with
    | Except.error e => Except.error e
    | Except.ok content => Profile.new cm.inner.connection content

/-- `ColorManager::profile_changed`: awaits the first `ProfileChanged` signal
and builds a `Profile` from the object path in its body. -/
def ColorManager.profile_changed (cm : ColorManager) (first : Option Message) :
    Except ZError Profile :=
  match first with
  | none => Except.error (ZError.failure "No response")
  | some message =>
    match decodeObjectPath message.body with
    | Except.error e => Except.error e
    | Except.ok content => Profile.new cm.inner.connection content

/-- `ColorManager::sensor_added`: awaits the first `SensorAdded` signal and
builds a `Sensor` from the object path in its body. -/
def ColorManager.sensor_added (cm : ColorManager) (first : Option Message) :
    Except ZError Sensor :=
  match first with
  | none => Except.error (ZError.failure "No response")
  | some message =>
    match decodeObjectPath message.body with
    | Except.error e => Except.error e
    | Except.ok content => Sensor.new cm.inner.connection content

/-- `ColorManager::sensor_removed`: awaits the first `SensorRemoved` signal
and builds a `Sensor` from the object path in its body. -/
def ColorManager.sensor_removed (cm : ColorManager) (first : Option Message) :
    Except ZError Sensor :=
  match first with
  | none => Except.error (ZError.failure "No response")
  | some message =>
    match decodeObjectPath message.body with
    | Except.error e => Except.error e
    | Except.ok content => Sensor.new cm.inner.connection content

/-- A concrete bus session used to instantiate the theorems below. -/
def sampleConnection : Connection := ⟨0⟩

/-- A concrete manager proxy (the result of `from_connection`). -/
def sampleManager : ColorManager :=
  ⟨⟨sampleConnection, "org.freedesktop.ColorManager",
    "/org/freedesktop/ColorManager", "org.freedesktop.ColorManager"⟩⟩

/-- A concrete device proxy. -/
def sampleDevice : Device :=
  ⟨⟨sampleConnection, "org.freedesktop.ColorManager.Device",
    "/org/freedesktop/ColorManager/devices/xrandr_eDP_1",
    "org.freedesktop.ColorManager"⟩⟩

/-- A concrete profile proxy. -/
def sampleProfile : Profile :=
  ⟨⟨sampleConnection, "org.freedesktop.ColorManager.Profile",
    "/org/freedesktop/ColorManager/profiles/icc_a1b2",
    "org.freedesktop.ColorManager"⟩⟩

/-- A concrete sensor proxy. -/
def sampleSensor : Sensor :=
  ⟨⟨sampleConnection, "org.freedesktop.ColorManager.Sensor",
    "/org/freedesktop/ColorManager/sensors/colormunki",
    "org.freedesktop.ColorManager"⟩⟩

/-- The device proxy `Device::new` produces on a syntactically valid path. -/
def mkDevice (conn : Connection) (p : String) : Device :=
  ⟨⟨conn, "org.freedesktop.ColorManager.Device", p, "org.freedesktop.ColorManager"⟩⟩

/-- The profile proxy `Profile::new` produces on a syntactically valid path. -/
def mkProfile (conn : Connection) (p : String) : Profile :=
  ⟨⟨conn, "org.freedesktop.ColorManager.Profile", p, "org.freedesktop.ColorManager"⟩⟩

/-- The sensor proxy `Sensor::new` produces on a syntactically valid path. -/
def mkSensor (conn : Connection) (p : String) : Sensor :=
  ⟨⟨conn, "org.freedesktop.ColorManager.Sensor", p, "org.freedesktop.ColorManager"⟩⟩

theorem decodeObjectPath_ok_valid {v : WireValue} {p : String}
    (h : decodeObjectPath v = Except.ok p) : validObjectPath p = true := by
  cases v with
  | objectPath q =>
    simp only [decodeObjectPath] at h
    split at h
    · simp only [Except.ok.injEq] at h
      subst h
      assumption
    · exact Except.noConfusion h
  | str s => exact Except.noConfusion h
  | boolean b => exact Except.noConfusion h
  | uint64 n => exact Except.noConfusion h
  | arr vs => exact Except.noConfusion h

theorem device_new_ok {conn : Connection} {p : String}
    (h : validObjectPath p = true) :
    Device.new conn p = Except.ok (mkDevice conn p) := by
  simp [Device.new, proxyBuild, h, mkDevice]

theorem device_new_err {conn : Connection} {p : String}
    (h : validObjectPath p = false) :
    Device.new conn p = Except.error ZError.invalidPath := by
  simp [Device.new, proxyBuild, h]

theorem profile_new_ok {conn : Connection} {p : String}
    (h : validObjectPath p = true) :
    Profile.new conn p = Except.ok (mkProfile conn p) := by
  simp [Profile.new, proxyBuild, h, mkProfile]

theorem profile_new_err {conn : Connection} {p : String}
    (h : validObjectPath p = false) :
    Profile.new conn p = Except.error ZError.invalidPath := by
  simp [Profile.new, proxyBuild, h]

theorem sensor_new_ok {conn : Connection} {p : String}
    (h : validObjectPath p = true) :
    Sensor.new conn p = Except.ok (mkSensor conn p) := by
  simp [Sensor.new, proxyBuild, h, mkSensor]

theorem sensor_new_err {conn : Connection} {p : String}
    (h : validObjectPath p = false) :
    Sensor.new conn p = Except.error ZError.invalidPath := by
  simp [Sensor.new, proxyBuild, h]

theorem device_from_paths_ok (conn : Connection) (paths : List String)
    (h : ∀ p ∈ paths, validObjectPath p = true) :
    Device.from_paths conn paths = Except.ok (paths.map (mkDevice conn)) := by
  induction paths with
  | nil => rfl
  | cons q rest ih =>
    have hq := h q (List.mem_cons_self q rest)
    have hrest : ∀ p ∈ rest, validObjectPath p = true :=
      fun p hp => h p (List.mem_cons_of_mem q hp)
    simp [Device.from_paths, device_new_ok hq, ih hrest]

theorem profile_from_paths_ok (conn : Connection) (paths : List String)
    (h : ∀ p ∈ paths, validObjectPath p = true) :
    Profile.from_paths conn paths = Except.ok (paths.map (mkProfile conn)) := by
  induction paths with
  | nil => rfl
  | cons q rest ih =>
    have hq := h q (List.mem_cons_self q rest)
    have hrest : ∀ p ∈ rest, validObjectPath p = true :=
      fun p hp => h p (List.mem_cons_of_mem q hp)
    simp [Profile.from_paths, profile_new_ok hq, ih hrest]

theorem sensor_from_paths_ok (conn : Connection) (paths : List String)
    (h : ∀ p ∈ paths, validObjectPath p = true) :
    Sensor.from_paths conn paths = Except.ok (paths.map (mkSensor conn)) := by
  induction paths with
  | nil => rfl
  | cons q rest ih =>
    have hq := h q (List.mem_cons_self q rest)
    have hrest : ∀ p ∈ rest, validObjectPath p = true :=
      fun p hp => h p (List.mem_cons_of_mem q hp)
    simp [Sensor.from_paths, sensor_new_ok hq, ih hrest]

theorem device_from_paths_err (conn : Connection) (paths : List String)
    (p : String) (hmem : p ∈ paths) (hbad : validObjectPath p = false) :
    Device.from_paths conn paths = Except.error ZError.invalidPath := by
  induction paths with
  | nil => cases hmem
  | cons q rest ih =>
    by_cases hq : validObjectPath q = true
    · have hpr : p ∈ rest := by
        rcases List.mem_cons.mp hmem with h1 | hr
        · subst h1; simp [hbad] at hq
        · exact hr
      simp [Device.from_paths, device_new_ok hq, ih hpr]
    · have hq1 : validObjectPath q = false := by simpa using hq
      simp [Device.from_paths, device_new_err hq1]

theorem profile_from_paths_err (conn : Connection) (paths : List String)
    (p : String) (hmem : p ∈ paths) (hbad : validObjectPath p = false) :
    Profile.from_paths conn paths = Except.error ZError.invalidPath := by
  induction paths with
  | nil => cases hmem
  | cons q rest ih =>
    by_cases hq : validObjectPath q = true
    · have hpr : p ∈ rest := by
        rcases List.mem_cons.mp hmem with h1 | hr
        · subst h1; simp [hbad] at hq
        · exact hr
      simp [Profile.from_paths, profile_new_ok hq, ih hpr]
    · have hq1 : validObjectPath q = false := by simpa using hq
      simp [Profile.from_paths, profile_new_err hq1]

theorem sensor_from_paths_err (conn : Connection) (paths : List String)
    (p : String) (hmem : p ∈ paths) (hbad : validObjectPath p = false) :
    Sensor.from_paths conn paths = Except.error ZError.invalidPath := by
  induction paths with
  | nil => cases hmem
  | cons q rest ih =>
    by_cases hq : validObjectPath q = true
    · have hpr : p ∈ rest := by
        rcases List.mem_cons.mp hmem with h1 | hr
        · subst h1; simp [hbad] at hq
        · exact hr
      simp [Sensor.from_paths, sensor_new_ok hq, ih hpr]
    · have hq1 : validObjectPath q = false := by simpa using hq
      simp [Sensor.from_paths, sensor_new_err hq1]

theorem decodePathElems_map (paths : List String)
    (h : ∀ p ∈ paths, validObjectPath p = true) :
    decodePathElems (paths.map WireValue.objectPath) = Except.ok paths := by
  induction paths with
  | nil => rfl
  | cons q rest ih =>
    have hq := h q (List.mem_cons_self q rest)
    have hrest : ∀ p ∈ rest, validObjectPath p = true :=
      fun p hp => h p (List.mem_cons_of_mem q hp)
    simp [decodePathElems, decodeObjectPath, hq, ih hrest]

/-- Claim C1.  The claim says `ColorManager::find_profile_by_id` sends the wire
method name `FindProfileById`.  The source instead sends `FindDeviceByProperty`
carrying the profile id as its single argument (while the two-argument
property lookup uses the same method name), and on success does build a
`Profile` from the object path in the reply.  This theorem evaluates the
embedded source at a concrete profile id and reply, exhibiting the mismatch
between the issued method name and the declared one. -/
theorem find_profile_by_id_sends_find_device_by_property :
    (ColorManager.find_profile_by_id_call sampleManager "icc-a1b2").method
        = "FindDeviceByProperty" ∧
    (ColorManager.find_profile_by_id_call sampleManager "icc-a1b2").method
        ≠ "FindProfileById" ∧
    (ColorManager.find_profile_by_id_call sampleManager "icc-a1b2").args
        = [WireValue.str "icc-a1b2"] ∧
    (ColorManager.find_device_by_property_call sampleManager "key" "value").method
        = "FindDeviceByProperty" ∧
    (ColorManager.find_device_by_property_call sampleManager "key" "value").args
        = [WireValue.str "key", WireValue.str "value"] ∧
    ColorManager.find_profile_by_id sampleManager
        ⟨WireValue.objectPath "/org/freedesktop/ColorManager/profiles/icc_a1b2"⟩
      = Except.ok sampleProfile :=
  ⟨rfl, by decide, rfl, rfl, rfl, rfl⟩

/-- Claim C2.  Encode-then-decode is the identity for `Scope`, the device
`Mode`, the sensor `Mode`, and `Relation`, but the `Kind` decoder fails the
round trip: its match tests `"Camera"` with a capital C (the encoder emits
lowercase `"camera"`) and has no arms for `printer` or `webcam`, so the wire
encodings of `Camera`, `Printer`, and `Webcam` all decode to `Display`. -/
theorem kind_roundtrip_fails :
    Kind.ofOwnedValue (Kind.encode Kind.camera) = Kind.display ∧
    Kind.ofOwnedValue (Kind.encode Kind.printer) = Kind.display ∧
    Kind.ofOwnedValue (Kind.encode Kind.webcam) = Kind.display ∧
    Kind.ofOwnedValue (Kind.encode Kind.scanner) = Kind.scanner ∧
    Kind.ofOwnedValue (Kind.encode Kind.display) = Kind.display ∧
    (∀ v : Scope, Scope.ofOwnedValue (Scope.encode v) = v) ∧
    (∀ v : Mode, Mode.ofOwnedValue (Mode.encode v) = v) ∧
    (∀ v : SensorMode, SensorMode.ofOwnedValue (SensorMode.encode v) = v) ∧
    (∀ v : Relation, Relation.deserialize (Relation.encode v) = some v) := by
  refine ⟨by decide, by decide, by decide, by decide, by decide, ?_, ?_, ?_, ?_⟩
  · intro v; cases v <;> decide
  · intro v; cases v <;> decide
  · intro v; cases v <;> decide
  · intro v; cases v <;> rfl

/-- Claim C3 counterexample.  Decoding an unrecognized wire string as a
`Relation` is not total with a default: the only decode path the crate has for
`Relation` (the serde deserializer used by `Device::profile_relation` through
`msg.body::<Relation>()`) rejects the string `"medium"` with a decode error
instead of yielding the default `hard`. -/
theorem relation_decode_unknown_is_error :
    Relation.deserialize "medium" = none ∧
    Relation.deserialize "medium" ≠ some Relation.default ∧
    Device.profile_relation sampleDevice sampleProfile ⟨WireValue.str "medium"⟩
      = Except.error ZError.decodeError :=
  ⟨rfl, by decide, rfl⟩

/-- Claim C3 amended.  For the enumeration types with an `OwnedValue` decoder
(`Scope`, `Kind`, device `Mode`, sensor `Mode`) decoding is a total function
and an unrecognized wire string yields the fixed fallback value (`normal`,
`display`, `unknown`, `unknown` respectively); `Relation` has no fallback
decoder — its deserializer rejects any string other than `soft`/`hard`, and
`Device::profile_relation` surfaces that as a decode error. -/
theorem decode_fallback_amended (s : String) (d : Device) (pr : Profile)
    (h1 : s ≠ "temp") (h2 : s ≠ "disk")
    (h3 : s ≠ "scanner") (h4 : s ≠ "Camera")
    (h5 : s ≠ "virtual") (h6 : s ≠ "physical")
    (h7 : s ≠ "ambient") (h8 : s ≠ "printer")
    (h9 : s ≠ "soft") (h10 : s ≠ "hard") :
    Scope.ofOwnedValue s = Scope.default ∧
    Kind.ofOwnedValue s = Kind.display ∧
    Mode.ofOwnedValue s = Mode.default ∧
    SensorMode.ofOwnedValue s = SensorMode.unknown ∧
    Relation.deserialize s = none ∧
    Device.profile_relation d pr ⟨WireValue.str s⟩
      = Except.error ZError.decodeError := by
  refine ⟨?_, ?_, ?_, ?_, ?_, ?_⟩
  · simp [Scope.ofOwnedValue, h1, h2]
  · simp [Kind.ofOwnedValue, h3, h4]
  · simp [Mode.ofOwnedValue, h5, h6]
  · simp [SensorMode.ofOwnedValue, h7, h8]
  · simp [Relation.deserialize, h9, h10]
  · simp [Device.profile_relation, Relation.deserialize, h9, h10]

/-- Claim C3 amended, witnessed at the concrete unrecognized string `"bogus"`. -/
theorem decode_fallback_amended_witness :
    Scope.ofOwnedValue "bogus" = Scope.default ∧
    Kind.ofOwnedValue "bogus" = Kind.display ∧
    Mode.ofOwnedValue "bogus" = Mode.default ∧
    SensorMode.ofOwnedValue "bogus" = SensorMode.unknown ∧
    Relation.deserialize "bogus" = none ∧
    Device.profile_relation sampleDevice sampleProfile ⟨WireValue.str "bogus"⟩
      = Except.error ZError.decodeError :=
  decode_fallback_amended "bogus" sampleDevice sampleProfile
    (by decide) (by decide) (by decide) (by decide) (by decide)
    (by decide) (by decide) (by decide) (by decide) (by decide)

/-- Claim C4.  The claim (and the rest of the schema: `DeviceProperties`
declares `embedded: bool`) takes the `Embedded` property to be a boolean
flag, but `Device::embedded` is declared `Result<String>` and decodes the
property with the string decoder: a boolean wire value is a decode error and
a textual value is returned verbatim, unlike boolean properties such as
`Enabled`. -/
theorem embedded_read_as_string_not_bool (d : Device) (b : Bool) (s : String) :
    Device.embedded d (WireValue.boolean b) = Except.error ZError.decodeError ∧
    Device.embedded d (WireValue.str s) = Except.ok s ∧
    Device.enabled d (WireValue.boolean b) = Except.ok b ∧
    Device.enabled d (WireValue.str s) = Except.error ZError.decodeError :=
  ⟨rfl, rfl, rfl, rfl⟩

/-- Claim C7.  Each entity proxy serializes as exactly its remote object path
(not its property set), also when embedded as an argument of another call:
`AddProfile`, `RemoveProfile`, `DeleteDevice`, and `DeleteProfile` all carry
the entity as an object-path wire value. -/
theorem entity_serializes_as_object_path (cm : ColorManager) (d : Device)
    (pr : Profile) (sn : Sensor) (r : Relation) :
    d.serialize = WireValue.objectPath d.inner.path ∧
    pr.serialize = WireValue.objectPath pr.inner.path ∧
    sn.serialize = WireValue.objectPath sn.inner.path ∧
    (Device.add_profile_call d r pr).args
        = [WireValue.str r.encode, WireValue.objectPath pr.inner.path] ∧
    (Device.remove_profile_call d pr).args
        = [WireValue.objectPath pr.inner.path] ∧
    (ColorManager.delete_device_call cm d).args
        = [WireValue.objectPath d.inner.path] ∧
    (ColorManager.delete_profile_call cm pr).args
        = [WireValue.objectPath pr.inner.path] :=
  ⟨rfl, rfl, rfl, rfl, rfl, rfl, rfl⟩

/-- Claim C8.  The default of `Scope` is `Normal` (wire `normal`), the default
of the device `Mode` is `Unknown` (wire `unknown`), and the default of
`Relation` is `Hard` (wire `hard`). -/
theorem enum_defaults_normal_unknown_hard :
    Scope.default = Scope.normal ∧ Scope.encode Scope.default = "normal" ∧
    Mode.default = Mode.unknown ∧ Mode.encode Mode.default = "unknown" ∧
    Relation.default = Relation.hard ∧ Relation.encode Relation.default = "hard" := by
  decide

/-- Claim C9.  Constructing an entity proxy from a syntactically invalid
object path fails at construction: `Device::new`, `Profile::new`, and
`Sensor::new` return the path-conversion error.  In the embedding these
constructors are pure functions of the connection and path alone — they
consult no reply message, so no remote method is involved. -/
theorem invalid_path_fails_at_construction (conn : Connection) (p : String)
    (h : validObjectPath p = false) :
    Device.new conn p = Except.error ZError.invalidPath ∧
    Profile.new conn p = Except.error ZError.invalidPath ∧
    Sensor.new conn p = Except.error ZError.invalidPath :=
  ⟨device_new_err h, profile_new_err h, sensor_new_err h⟩

/-- Claim C9, witnessed at the concrete invalid path `"no-leading-slash"`. -/
theorem invalid_path_fails_at_construction_witness :
    Device.new sampleConnection "no-leading-slash"
        = Except.error ZError.invalidPath ∧
    Profile.new sampleConnection "no-leading-slash"
        = Except.error ZError.invalidPath ∧
    Sensor.new sampleConnection "no-leading-slash"
        = Except.error ZError.invalidPath :=
  invalid_path_fails_at_construction sampleConnection "no-leading-slash" (by decide)

/-- A concrete signal message carrying a device object path, and that path. -/
def sampleEventPath : String := "/org/freedesktop/ColorManager/devices/dev0"

/-- The signal message whose body is `sampleEventPath`. -/
def sampleEventMsg : Message := ⟨WireValue.objectPath sampleEventPath⟩

/-- Claim C5.  Every notification operation fails with
`zbus::Error::Failure("No response")` when its signal stream closes before
delivering a message (`first = none`), and resolves once when a message
arrives: with unit for the coarse `Changed`/`ButtonPressed` events, and with
the entity proxy built from the object path in the message body for the
entity-level signals. -/
theorem notification_first_event_or_no_response
    (cm : ColorManager) (d : Device) (pr : Profile) (sn : Sensor)
    (msg : Message) (p : String)
    (hp : decodeObjectPath msg.body = Except.ok p) :
    ColorManager.changed cm none = Except.error (ZError.failure "No response") ∧
    ColorManager.changed cm (some msg) = Except.ok () ∧
    Device.changed d none = Except.error (ZError.failure "No response") ∧
    Device.changed d (some msg) = Except.ok () ∧
    Profile.changed pr none = Except.error (ZError.failure "No response") ∧
    Profile.changed pr (some msg) = Except.ok () ∧
    Sensor.button_pressed sn none = Except.error (ZError.failure "No response") ∧
    Sensor.button_pressed sn (some msg) = Except.ok () ∧
    ColorManager.device_added cm none
        = Except.error (ZError.failure "No response") ∧
    ColorManager.device_added cm (some msg)
        = Except.ok (mkDevice cm.inner.connection p) ∧
    ColorManager.device_changed cm none
        = Except.error (ZError.failure "No response") ∧
    ColorManager.device_changed cm (some msg)
        = Except.ok (mkDevice cm.inner.connection p) ∧
    ColorManager.profile_added cm none
        = Except.error (ZError.failure "No response") ∧
    ColorManager.profile_added cm (some msg)
        = Except.ok (mkProfile cm.inner.connection p) ∧
    ColorManager.profile_removed cm none
        = Except.error (ZError.failure "No response") ∧
    ColorManager.profile_removed cm (some msg)
        = Except.ok (mkProfile cm.inner.connection p) ∧
    ColorManager.profile_changed cm none
        = Except.error (ZError.failure "No response") ∧
    ColorManager.profile_changed cm (some msg)
        = Except.ok (mkProfile cm.inner.connection p) ∧
    ColorManager.sensor_added cm none
        = Except.error (ZError.failure "No response") ∧
    ColorManager.sensor_added cm (some msg)
        = Except.ok (mkSensor cm.inner.connection p) ∧
    ColorManager.sensor_removed cm none
        = Except.error (ZError.failure "No response") ∧
    ColorManager.sensor_removed cm (some msg)
        = Except.ok (mkSensor cm.inner.connection p) := by
  have hv := decodeObjectPath_ok_valid hp
  refine ⟨rfl, rfl, rfl, rfl, rfl, rfl, rfl, rfl, rfl, ?_, rfl, ?_, rfl, ?_,
    rfl, ?_, rfl, ?_, rfl, ?_, rfl, ?_⟩ <;>
    simp [ColorManager.device_added, ColorManager.device_changed,
      ColorManager.profile_added, ColorManager.profile_removed,
      ColorManager.profile_changed, ColorManager.sensor_added,
      ColorManager.sensor_removed, hp, device_new_ok hv, profile_new_ok hv,
      sensor_new_ok hv]

/-- Claim C5, witnessed at a concrete message carrying a concrete path. -/
theorem notification_first_event_or_no_response_witness :
    ColorManager.changed sampleManager none
        = Except.error (ZError.failure "No response") ∧
    ColorManager.changed sampleManager (some sampleEventMsg) = Except.ok () ∧
    Device.changed sampleDevice none
        = Except.error (ZError.failure "No response") ∧
    Device.changed sampleDevice (some sampleEventMsg) = Except.ok () ∧
    Profile.changed sampleProfile none
        = Except.error (ZError.failure "No response") ∧
    Profile.changed sampleProfile (some sampleEventMsg) = Except.ok () ∧
    Sensor.button_pressed sampleSensor none
        = Except.error (ZError.failure "No response") ∧
    Sensor.button_pressed sampleSensor (some sampleEventMsg) = Except.ok () ∧
    ColorManager.device_added sampleManager none
        = Except.error (ZError.failure "No response") ∧
    ColorManager.device_added sampleManager (some sampleEventMsg)
        = Except.ok (mkDevice sampleConnection sampleEventPath) ∧
    ColorManager.device_changed sampleManager none
        = Except.error (ZError.failure "No response") ∧
    ColorManager.device_changed sampleManager (some sampleEventMsg)
        = Except.ok (mkDevice sampleConnection sampleEventPath) ∧
    ColorManager.profile_added sampleManager none
        = Except.error (ZError.failure "No response") ∧
    ColorManager.profile_added sampleManager (some sampleEventMsg)
        = Except.ok (mkProfile sampleConnection sampleEventPath) ∧
    ColorManager.profile_removed sampleManager none
        = Except.error (ZError.failure "No response") ∧
    ColorManager.profile_removed sampleManager (some sampleEventMsg)
        = Except.ok (mkProfile sampleConnection sampleEventPath) ∧
    ColorManager.profile_changed sampleManager none
        = Except.error (ZError.failure "No response") ∧
    ColorManager.profile_changed sampleManager (some sampleEventMsg)
        = Except.ok (mkProfile sampleConnection sampleEventPath) ∧
    ColorManager.sensor_added sampleManager none
        = Except.error (ZError.failure "No response") ∧
    ColorManager.sensor_added sampleManager (some sampleEventMsg)
        = Except.ok (mkSensor sampleConnection sampleEventPath) ∧
    ColorManager.sensor_removed sampleManager none
        = Except.error (ZError.failure "No response") ∧
    ColorManager.sensor_removed sampleManager (some sampleEventMsg)
        = Except.ok (mkSensor sampleConnection sampleEventPath) :=
  notification_first_event_or_no_response sampleManager sampleDevice
    sampleProfile sampleSensor sampleEventMsg sampleEventPath rfl

/-- Claim C6.  When a listing reply carries n syntactically valid object
paths, each listing operation (`devices`, `devices_by_kind`, `sensors`,
`profiles_by_kind`, `Device::profiles`, all via `from_paths`) returns `Ok`
with exactly one proxy per path in the reply order; a reply with zero paths
yields `Ok` with the empty collection. -/
theorem listing_one_proxy_per_path (cm : ColorManager) (d : Device)
    (kind : String) (paths : List String)
    (h : ∀ p ∈ paths, validObjectPath p = true) :
    Device.from_paths cm.inner.connection paths
        = Except.ok (paths.map (mkDevice cm.inner.connection)) ∧
    ColorManager.devices cm ⟨WireValue.arr (paths.map WireValue.objectPath)⟩
        = Except.ok (paths.map (mkDevice cm.inner.connection)) ∧
    ColorManager.devices_by_kind cm kind
        ⟨WireValue.arr (paths.map WireValue.objectPath)⟩
        = Except.ok (paths.map (mkDevice cm.inner.connection)) ∧
    ColorManager.sensors cm ⟨WireValue.arr (paths.map WireValue.objectPath)⟩
        = Except.ok (paths.map (mkSensor cm.inner.connection)) ∧
    ColorManager.profiles_by_kind cm kind
        ⟨WireValue.arr (paths.map WireValue.objectPath)⟩
        = Except.ok (paths.map (mkProfile cm.inner.connection)) ∧
    Device.profiles d (WireValue.arr (paths.map WireValue.objectPath))
        = Except.ok (paths.map (mkProfile d.inner.connection)) ∧
    (paths.map (mkDevice cm.inner.connection)).length = paths.length ∧
    ColorManager.devices cm ⟨WireValue.arr []⟩ = Except.ok [] := by
  refine ⟨device_from_paths_ok _ _ h, ?_, ?_, ?_, ?_, ?_,
    paths.length_map _, rfl⟩ <;>
    simp [ColorManager.devices, ColorManager.devices_by_kind,
      ColorManager.sensors, ColorManager.profiles_by_kind, Device.profiles,
      decodeObjectPathList, decodePathElems_map _ h,
      device_from_paths_ok _ _ h, profile_from_paths_ok _ _ h,
      sensor_from_paths_ok _ _ h]

/-- Claim C6, witnessed at a concrete two-element path list. -/
theorem listing_one_proxy_per_path_witness :
    Device.from_paths sampleManager.inner.connection
        ["/org/freedesktop/ColorManager/devices/dev0",
         "/org/freedesktop/ColorManager/devices/dev1"]
        = Except.ok (["/org/freedesktop/ColorManager/devices/dev0",
            "/org/freedesktop/ColorManager/devices/dev1"].map
            (mkDevice sampleManager.inner.connection)) ∧
    ColorManager.devices sampleManager
        ⟨WireValue.arr (["/org/freedesktop/ColorManager/devices/dev0",
            "/org/freedesktop/ColorManager/devices/dev1"].map
            WireValue.objectPath)⟩
        = Except.ok (["/org/freedesktop/ColorManager/devices/dev0",
            "/org/freedesktop/ColorManager/devices/dev1"].map
            (mkDevice sampleManager.inner.connection)) ∧
    ColorManager.devices_by_kind sampleManager "display"
        ⟨WireValue.arr (["/org/freedesktop/ColorManager/devices/dev0",
            "/org/freedesktop/ColorManager/devices/dev1"].map
            WireValue.objectPath)⟩
        = Except.ok (["/org/freedesktop/ColorManager/devices/dev0",
            "/org/freedesktop/ColorManager/devices/dev1"].map
            (mkDevice sampleManager.inner.connection)) ∧
    ColorManager.sensors sampleManager
        ⟨WireValue.arr (["/org/freedesktop/ColorManager/devices/dev0",
            "/org/freedesktop/ColorManager/devices/dev1"].map
            WireValue.objectPath)⟩
        = Except.ok (["/org/freedesktop/ColorManager/devices/dev0",
            "/org/freedesktop/ColorManager/devices/dev1"].map
            (mkSensor sampleManager.inner.connection)) ∧
    ColorManager.profiles_by_kind sampleManager "display"
        ⟨WireValue.arr (["/org/freedesktop/ColorManager/devices/dev0",
            "/org/freedesktop/ColorManager/devices/dev1"].map
            WireValue.objectPath)⟩
        = Except.ok (["/org/freedesktop/ColorManager/devices/dev0",
            "/org/freedesktop/ColorManager/devices/dev1"].map
            (mkProfile sampleManager.inner.connection)) ∧
    Device.profiles sampleDevice
        (WireValue.arr (["/org/freedesktop/ColorManager/devices/dev0",
            "/org/freedesktop/ColorManager/devices/dev1"].map
            WireValue.objectPath))
        = Except.ok (["/org/freedesktop/ColorManager/devices/dev0",
            "/org/freedesktop/ColorManager/devices/dev1"].map
            (mkProfile sampleDevice.inner.connection)) ∧
    ((["/org/freedesktop/ColorManager/devices/dev0",
        "/org/freedesktop/ColorManager/devices/dev1"] : List String).map
        (mkDevice sampleManager.inner.connection)).length
        = (["/org/freedesktop/ColorManager/devices/dev0",
            "/org/freedesktop/ColorManager/devices/dev1"] : List String).length ∧
    ColorManager.devices sampleManager ⟨WireValue.arr []⟩ = Except.ok [] :=
  listing_one_proxy_per_path sampleManager sampleDevice "display"
    ["/org/freedesktop/ColorManager/devices/dev0",
     "/org/freedesktop/ColorManager/devices/dev1"] (by decide)

/-- Claim C10.  Proxy-list construction is all-or-nothing: if any path in the
list is invalid, `from_paths` (for devices, profiles, and sensors alike)
returns the construction error and never a partial collection. -/
theorem list_construction_all_or_nothing (conn : Connection)
    (paths : List String) (p : String)
    (hmem : p ∈ paths) (hbad : validObjectPath p = false) :
    Device.from_paths conn paths = Except.error ZError.invalidPath ∧
    Profile.from_paths conn paths = Except.error ZError.invalidPath ∧
    Sensor.from_paths conn paths = Except.error ZError.invalidPath :=
  ⟨device_from_paths_err conn paths p hmem hbad,
   profile_from_paths_err conn paths p hmem hbad,
   sensor_from_paths_err conn paths p hmem hbad⟩

/-- Claim C10, witnessed at a list whose second path is invalid. -/
theorem list_construction_all_or_nothing_witness :
    Device.from_paths sampleConnection
        ["/org/freedesktop/ColorManager/devices/dev0", "bad path"]
        = Except.error ZError.invalidPath ∧
    Profile.from_paths sampleConnection
        ["/org/freedesktop/ColorManager/devices/dev0", "bad path"]
        = Except.error ZError.invalidPath ∧
    Sensor.from_paths sampleConnection
        ["/org/freedesktop/ColorManager/devices/dev0", "bad path"]
        = Except.error ZError.invalidPath :=
  list_construction_all_or_nothing sampleConnection
    ["/org/freedesktop/ColorManager/devices/dev0", "bad path"] "bad path"
    (by decide) (by decide)

end Colord





